import Mathlib

/-!
Shallow embedding of the traffic-signal core of the repository
(`src/model.py`, `src/controller.py`).

Modelling conventions:
- Python `int` becomes `Int`; the wall-clock hour `datetime.now().hour`
  becomes an explicit `Nat` argument.
- `GeoPoint` coordinates are modelled as `Int`; no settled claim evaluates
  `distance_to`, so floating-point arithmetic is never needed.
- A Python attribute that `__init__` never assigns (`confine`,
  `question_component`, `baseDataPosition` on `TrafficLight`) is modelled as
  an `Option` field that starts as `none`; reading it while `none` raises
  `AttributeError`, so the reading operation returns `Except PyErr _`.
- A repository (`Repository._storage`, a Python dict) is an association list
  `List (String × α)`: `lookup` returns the first binding, `setEntry`
  rewrites the binding, matching dict get/set for the unique-key dicts the
  code builds.
- `print` side effects are dropped; only state and return values are kept.
-/

/-- Python `AttributeError` raised when an unassigned attribute is read. -/
inductive PyErr where
  | attributeErrorConfine
  | attributeErrorQuestionComponent
  deriving DecidableEq, Repr

/-- `Phase(Enum)` from `src/model.py`. -/
inductive Phase where
  | RED
  | YELLOW
  | GREEN
  | OFF
  deriving DecidableEq, Repr

/-- `Status(Enum)` from `src/model.py`. -/
inductive Status where
  | OPERATIONAL
  | MALFUNCTION
  | MAINTENANCE
  | OFFLINE
  deriving DecidableEq, Repr

/-- `IncidentStatus(Enum)` from `src/model.py`. -/
inductive IncidentStatus where
  | REPORTED
  | CONFIRMED
  | RESOLVED
  | FALSE_ALARM
  deriving DecidableEq, Repr

/-- `IncidentType(Enum)` from `src/model.py`. -/
inductive IncidentType where
  | ACCIDENT
  | CONGESTION
  | ROAD_CLOSURE
  | CONSTRUCTION
  | OTHER
  deriving DecidableEq, Repr

/-- `GeoPoint` from `src/model.py` (coordinates modelled as `Int`). -/
structure GeoPoint where
  x : Int
  y : Int
  deriving DecidableEq, Repr

/-- Character-list matching: does the first list start the second?
Used to embed Python's substring operator `in`. -/
def chStarts : List Char → List Char → Bool
  | [], _ => true
  | _ :: _, [] => false
  | p :: ps, c :: cs => p == c && chStarts ps cs

/-- Does `pat` occur as a contiguous run inside the list? -/
def chSub (pat : List Char) : List Char → Bool
  | [] => chStarts pat []
  | c :: cs => chStarts pat (c :: cs) || chSub pat cs

/-- Python `pat in s` on strings: substring containment. -/
def strContains (s pat : String) : Bool := chSub pat.toList s.toList

/-- `TrafficLight` state (`src/model.py` lines 146-202).  `confine`,
`question_component` and `baseDataPosition` are never assigned by
`__init__`; `none` models the attribute being absent. -/
structure TrafficLight where
  lightId : String
  location : GeoPoint
  currentPhase : Phase
  phaseDuration : Int
  isOnline : Bool
  confine : Option Bool
  question_component : Option String
  baseDataPosition : Option Int
  deriving DecidableEq, Repr

namespace TrafficLight

/-- `TrafficLight.__init__` (`src/model.py` lines 147-158): sets `lightId`,
`location`, `currentPhase = RED`, `phaseDuration = 0`, `isOnline = False`,
and nothing else. -/
def init (lightId : String) (location : GeoPoint) : TrafficLight where
  lightId := lightId
  location := location
  currentPhase := Phase.RED
  phaseDuration := 0
  isOnline := false
  confine := none
  question_component := none
  baseDataPosition := none

/-- `TrafficLight.setPhaseUpdate` (`src/model.py` lines 160-175): reads
`self.confine` (AttributeError when unset); when confined it prints a
warning and returns with no state change; otherwise it assigns
`self.currentPhase = phase` and `self.baseDataPosition = duration`
(note: not `phaseDuration`). -/
def setPhaseUpdate (l : TrafficLight) (phase : Phase) (duration : Int) :
    Except PyErr TrafficLight :=
  match l.confine with
  | none => Except.error PyErr.attributeErrorConfine
  | some c =>
    if c then
      Except.ok l
    else
      Except.ok { l with currentPhase := phase, baseDataPosition := some duration }

/-- `TrafficLight.getStatusUp` (`src/model.py` lines 177-191): reads
`self.confine` (AttributeError when unset); confined gives MAINTENANCE;
`phase == OFF` gives OFFLINE; otherwise it reads `self.question_component`
(AttributeError when unset) and gives MALFUNCTION when it is empty (falsy)
or contains the substring `"ERROR"`, else OPERATIONAL.  `isOnline` is
never consulted. -/
def getStatusUp (l : TrafficLight) : Except PyErr Status :=
  match l.confine with
  | none => Except.error PyErr.attributeErrorConfine
  | some c =>
    if c then
      Except.ok Status.MAINTENANCE
    else if l.currentPhase = Phase.OFF then
      Except.ok Status.OFFLINE
    else
      match l.question_component with
      | none => Except.error PyErr.attributeErrorQuestionComponent
      | some qc =>
        if qc.isEmpty || strContains qc ("ERROR") then
          Except.ok Status.MALFUNCTION
        else
          Except.ok Status.OPERATIONAL

/-- `TrafficLight.setConfine` (`src/model.py` lines 193-202): assigns
`self.confine = confine`. -/
def setConfine (l : TrafficLight) (c : Bool) : TrafficLight :=
  { l with confine := some c }

end TrafficLight

/-- `Incident` from `src/model.py` lines 131-144 (`datetime` timestamp
modelled as an opaque `Int` tick). -/
structure Incident where
  incidentId : String
  type : IncidentType
  location : GeoPoint
  severity : Int
  timestamp : Int
  status : IncidentStatus
  deriving DecidableEq, Repr

namespace Incident

/-- `Incident.__init__`: all fields from arguments, `status = REPORTED`. -/
def init (incidentId : String) (type : IncidentType) (location : GeoPoint)
    (severity : Int) (timestamp : Int) : Incident where
  incidentId := incidentId
  type := type
  location := location
  severity := severity
  timestamp := timestamp
  status := IncidentStatus.REPORTED

/-- `Incident.updateStatus` (`src/model.py` lines 141-144): assigns the
requested status unconditionally — no transition table is consulted. -/
def updateStatus (i : Incident) (status : IncidentStatus) : Incident :=
  { i with status := status }

end Incident

/-- `GreenwaveStrategy` from `src/model.py` lines 204-229. -/
structure GreenwaveStrategy where
  strategyId : String
  route : List TrafficLight
  targetSpeed : Int
  isActive : Bool
  deriving DecidableEq, Repr

namespace GreenwaveStrategy

/-- `GreenwaveStrategy.__init__`: stores the route and target speed,
`isActive = False`. -/
def init (strategyId : String) (route : List TrafficLight) (targetSpeed : Int) :
    GreenwaveStrategy where
  strategyId := strategyId
  route := route
  targetSpeed := targetSpeed
  isActive := false

/-- `GreenwaveStrategy.activate` (`src/model.py` lines 211-220): when
already active, prints a warning and returns; otherwise sets
`isActive = True` and prints.  No offsets are computed and no signal in
the route is touched. -/
def activate (g : GreenwaveStrategy) : GreenwaveStrategy :=
  if g.isActive then g else { g with isActive := true }

/-- `GreenwaveStrategy.deactivate` (`src/model.py` lines 222-229): when not
active, prints a warning and returns; otherwise sets `isActive = False`. -/
def deactivate (g : GreenwaveStrategy) : GreenwaveStrategy :=
  if g.isActive then { g with isActive := false } else g

end GreenwaveStrategy

/-- `Repository.getById` (`src/repository.py` lines 16-18): dict get,
modelled as first-binding lookup. -/
def lookup {α : Type} (repo : List (String × α)) (id : String) : Option α :=
  match repo with
  | [] => none
  | p :: rest => if p.1 = id then some p.2 else lookup rest id

/-- `Repository.update`/dict assignment: rewrite the binding for `id`
(dict keys are unique, so rewriting every matching binding agrees). -/
def setEntry {α : Type} (repo : List (String × α)) (id : String) (v : α) :
    List (String × α) :=
  repo.map (fun p => if p.1 = id then (p.1, v) else p)

/-- `TrafficLightRepository.findByIntersection` (`src/repository.py` lines
208-211): bindings whose key contains `intersection_id` as a substring. -/
def findByIntersection (repo : List (String × TrafficLight))
    (intersection_id : String) : List (String × TrafficLight) :=
  repo.filter (fun p => strContains p.1 intersection_id)

namespace TrafficController

/-- `TrafficController.manualSwitch` (`src/controller.py` lines 210-227):
look the light up; when found, call `setPhaseUpdate` (which may raise, and
silently no-ops on a confined light), store it back, and return `True`;
when the id is unknown return `False`. -/
def manualSwitch (repo : List (String × TrafficLight)) (light_id : String)
    (phase : Phase) (duration : Int) :
    Except PyErr (List (String × TrafficLight) × Bool) :=
  match lookup repo light_id with
  | some light =>
    match light.setPhaseUpdate phase duration with
    | Except.error e => Except.error e
    | Except.ok l2 => Except.ok (setEntry repo light_id l2, true)
  | none => Except.ok (repo, false)

/-- The peak-hour test of `optimizePhases`:
`7 <= hour <= 9 or 16 <= hour <= 18`. -/
def peakHour (hour : Nat) : Bool :=
  (decide (7 ≤ hour) && decide (hour ≤ 9)) ||
    (decide (16 ≤ hour) && decide (hour ≤ 18))

/-- One iteration of the `optimizePhases` loop body on a single light:
query `getStatusUp` (may raise); when OPERATIONAL, apply
`setPhaseUpdate(GREEN, 45 or 30)` and record
`(light.lightId, currentPhase, phaseDuration)` read back from the mutated
light — the dict entry built at `src/controller.py` lines 202-205;
otherwise leave the light untouched and record nothing. -/
def optimizeStep (hour : Nat) (light : TrafficLight) :
    Except PyErr (TrafficLight × Option (Phase × Int)) :=
  match light.getStatusUp with
  | Except.error e => Except.error e
  | Except.ok st =>
    if st = Status.OPERATIONAL then
      let d : Int := if peakHour hour then 45 else 30
      match light.setPhaseUpdate Phase.GREEN d with
      | Except.error e => Except.error e
      | Except.ok l2 => Except.ok (l2, some (l2.currentPhase, l2.phaseDuration))
    else
      Except.ok (light, none)

/-- The `for light in junction_lights` loop of `optimizePhases`
(`src/controller.py` lines 193-205).  The repo is threaded through so that
in-place mutation persists even when a later iteration raises (Python
exceptions do not roll anything back); results keep iteration order. -/
def optimizeLoop (hour : Nat) (repo : List (String × TrafficLight)) :
    List (String × TrafficLight) →
    List (String × TrafficLight) × Except PyErr (List (String × Phase × Int))
  | [] => (repo, Except.ok [])
  | (key, light) :: rest =>
    match optimizeStep hour light with
    | Except.error e => (repo, Except.error e)
    | Except.ok (l2, entry) =>
      match optimizeLoop hour (setEntry repo key l2) rest with
      | (repoF, Except.error e) => (repoF, Except.error e)
      | (repoF, Except.ok entries) =>
        (repoF,
          Except.ok
            (match entry with
             | none => entries
             | some pd => (light.lightId, pd.1, pd.2) :: entries))

/-- Result dictionary of `optimizePhases`: either the `{"error": ...}` dict
returned when the junction has no lights, or the id-keyed results dict. -/
inductive OptimizeOutcome where
  | noLights
  | results (entries : List (String × Phase × Int))
  deriving DecidableEq, Repr

/-- `TrafficController.optimizePhases` (`src/controller.py` lines 183-208):
filter the repo by junction substring, return the error dict when empty,
otherwise run the loop. -/
def optimizePhases (hour : Nat) (repo : List (String × TrafficLight))
    (junction_id : String) :
    List (String × TrafficLight) × Except PyErr OptimizeOutcome :=
  let junction := findByIntersection repo junction_id
  if junction.isEmpty then
    (repo, Except.ok OptimizeOutcome.noLights)
  else
    match optimizeLoop hour repo junction with
    | (repoF, Except.error e) => (repoF, Except.error e)
    | (repoF, Except.ok entries) =>
      (repoF, Except.ok (OptimizeOutcome.results entries))

end TrafficController

namespace IncidentController

/-- `IncidentController.closeIncident` (`src/controller.py` lines 102-119):
look the incident up; when found, `updateStatus(RESOLVED)` unconditionally
(no transition check), store it back, return `True`; unknown id returns
`False`. -/
def closeIncident (repo : List (String × Incident)) (incident_id : String) :
    List (String × Incident) × Bool :=
  match lookup repo incident_id with
  | some inc =>
    (setEntry repo incident_id (inc.updateStatus IncidentStatus.RESOLVED), true)
  | none => (repo, false)

/-- `IncidentController.verifyIncident` (`src/controller.py` lines 85-100):
same shape with `CONFIRMED`. -/
def verifyIncident (repo : List (String × Incident)) (incident_id : String) :
    List (String × Incident) × Bool :=
  match lookup repo incident_id with
  | some inc =>
    (setEntry repo incident_id (inc.updateStatus IncidentStatus.CONFIRMED), true)
  | none => (repo, false)

end IncidentController

/-! ### Concrete fixtures used by the claim theorems and witnesses -/

/-- A light whose `confine` attribute has been set to `False` (as after
`setConfine(False)`) and whose `question_component` holds a healthy string,
so that `getStatusUp` returns OPERATIONAL. -/
def c1Light : TrafficLight where
  lightId := ("TL1")
  location := ⟨0, 0⟩
  currentPhase := Phase.RED
  phaseDuration := 0
  isOnline := true
  confine := some false
  question_component := some ("OK")
  baseDataPosition := none

/-- An offline-flagged but otherwise healthy light: `isOnline = False`,
released, phase RED, healthy `question_component`. -/
def c2Light : TrafficLight where
  lightId := ("TL2")
  location := ⟨0, 0⟩
  currentPhase := Phase.RED
  phaseDuration := 5
  isOnline := false
  confine := some false
  question_component := some ("OK")
  baseDataPosition := none

/-- A confined light with nonzero stored duration. -/
def c3Light : TrafficLight where
  lightId := ("TL3")
  location := ⟨1, 2⟩
  currentPhase := Phase.RED
  phaseDuration := 7
  isOnline := true
  confine := some true
  question_component := some ("OK")
  baseDataPosition := none

/-- A freshly reported incident. -/
def c4Inc : Incident :=
  Incident.init ("INC1") IncidentType.ACCIDENT ⟨0, 0⟩ 3 0

/-- An incident already in the terminal FALSE_ALARM state. -/
def c4IncTerminal : Incident :=
  { c4Inc with incidentId := ("INC2"), status := IncidentStatus.FALSE_ALARM }

/-- An OPERATIONAL light at junction `"J"` with `phaseDuration = 0`. -/
def c5Light : TrafficLight where
  lightId := ("J1")
  location := ⟨0, 0⟩
  currentPhase := Phase.RED
  phaseDuration := 0
  isOnline := true
  confine := some false
  question_component := some ("OK")
  baseDataPosition := none

/-- A confined light at junction `"J"`, so its status is MAINTENANCE. -/
def c5Conf : TrafficLight where
  lightId := ("J2")
  location := ⟨3, 4⟩
  currentPhase := Phase.RED
  phaseDuration := 9
  isOnline := true
  confine := some true
  question_component := some ("OK")
  baseDataPosition := none

/-- The spec's green-wave scenario: three signals whose cumulative
straight-line distances along the route are 0, 100 and 250. -/
def c6LightA : TrafficLight := TrafficLight.init ("GW1") ⟨0, 0⟩

/-- Second node of the spec's green-wave scenario (distance 100). -/
def c6LightB : TrafficLight := TrafficLight.init ("GW2") ⟨100, 0⟩

/-- Third node of the spec's green-wave scenario (distance 250). -/
def c6LightC : TrafficLight := TrafficLight.init ("GW3") ⟨250, 0⟩

/-- The spec's route of three signals with target speed 50. -/
def c6Route : GreenwaveStrategy :=
  GreenwaveStrategy.init ("GW") [c6LightA, c6LightB, c6LightC] 50

/-- A freshly constructed (hence inactive) green-wave strategy. -/
def c7Route : GreenwaveStrategy :=
  GreenwaveStrategy.init ("GW7") [c6LightA, c6LightB] 40

/-- A light with `confine` set to `False`, used to exercise the
phase-change path of `setPhaseUpdate`. -/
def c8Light : TrafficLight where
  lightId := ("TL8")
  location := ⟨0, 0⟩
  currentPhase := Phase.YELLOW
  phaseDuration := 0
  isOnline := true
  confine := some false
  question_component := some ("OK")
  baseDataPosition := none

/-- A freshly constructed light: `confine` and `question_component`
were never assigned. -/
def c10Fresh : TrafficLight := TrafficLight.init ("TL10") ⟨0, 0⟩

/-- A confined light stored in the repository under key `"TL10"`. -/
def c10Conf : TrafficLight := { c10Fresh with confine := some true }

/-! ### Helper lemmas -/

/-- Rewriting the binding of a present key makes `lookup` return the new
value. -/
theorem lookup_setEntry {α : Type} (repo : List (String × α)) (id : String)
    (v : α) (h : (lookup repo id).isSome) :
    lookup (setEntry repo id v) id = some v := by
  induction repo with
  | nil => simp [lookup] at h
  | cons p rest ih =>
    by_cases hp : p.1 = id
    · simp [lookup, setEntry, hp]
    · simp [lookup, setEntry, hp] at h ⊢
      exact ih h

/-! ### Claim theorems -/

/-- Claim C1 (code bug, evaluated at the failing input): on a non-confined
light, `setPhaseUpdate(GREEN, 45)` sets the phase but stores the duration
into the stray `baseDataPosition` attribute, so the stored `phaseDuration`
field read back afterwards is still 0, not 45. -/
theorem c1_setPhaseUpdate_misses_phaseDuration :
    c1Light.setPhaseUpdate Phase.GREEN 45
      = Except.ok { c1Light with
          currentPhase := Phase.GREEN
          baseDataPosition := some 45 }
    ∧ ({ c1Light with
          currentPhase := Phase.GREEN
          baseDataPosition := some 45 } : TrafficLight).phaseDuration = 0 :=
  ⟨rfl, rfl⟩

/-- Claim C2 counterexample: a light with `isOnline = False` (released,
phase RED, healthy `question_component`) gets status OPERATIONAL, not the
OFFLINE the claim requires for every not-online signal; and a light whose
`question_component` contains `"ERROR"` gets MALFUNCTION, which the claim
says this core never returns. -/
theorem c2_not_online_not_offline :
    c2Light.isOnline = false
    ∧ c2Light.getStatusUp = Except.ok Status.OPERATIONAL
    ∧ ({ c2Light with question_component := some ("ERROR") }
        : TrafficLight).getStatusUp = Except.ok Status.MALFUNCTION :=
  ⟨rfl, rfl, rfl⟩

/-- Claim C2 as amended: `getStatusUp` never consults `isOnline`; it
returns MAINTENANCE when confined, else OFFLINE when the phase is OFF,
else (when `question_component` is assigned) MALFUNCTION when that string
is empty or contains `"ERROR"` and OPERATIONAL otherwise. -/
theorem c2_status_characterization (l : TrafficLight) (b : Bool) :
    ({ l with isOnline := b } : TrafficLight).getStatusUp = l.getStatusUp
    ∧ (l.confine = some true → l.getStatusUp = Except.ok Status.MAINTENANCE)
    ∧ (l.confine = some false → l.currentPhase = Phase.OFF →
        l.getStatusUp = Except.ok Status.OFFLINE)
    ∧ (∀ qc, l.confine = some false → l.currentPhase ≠ Phase.OFF →
        l.question_component = some qc →
        l.getStatusUp =
          (if qc.isEmpty || strContains qc ("ERROR") then
            Except.ok Status.MALFUNCTION
           else Except.ok Status.OPERATIONAL)) := by
  refine ⟨rfl, ?_, ?_, ?_⟩
  · intro h
    simp [TrafficLight.getStatusUp, h]
  · intro h1 h2
    simp [TrafficLight.getStatusUp, h1, h2]
  · intro qc h1 h2 h3
    simp [TrafficLight.getStatusUp, h1, h2, h3]

/-- Witness for the amended C2, discharging each hypothesis at concrete
lights (confined; phase OFF; empty `question_component`). -/
theorem c2_status_characterization_witness :
    ({ c2Light with confine := some true } : TrafficLight).getStatusUp
      = Except.ok Status.MAINTENANCE
    ∧ ({ c2Light with currentPhase := Phase.OFF } : TrafficLight).getStatusUp
      = Except.ok Status.OFFLINE
    ∧ ({ c2Light with question_component := some ("") }
        : TrafficLight).getStatusUp = Except.ok Status.MALFUNCTION := by
  refine ⟨(c2_status_characterization _ true).2.1 rfl,
    (c2_status_characterization _ true).2.2.1 rfl rfl, ?_⟩
  rw [(c2_status_characterization
    ({ c2Light with question_component := some ("") }) true).2.2.2
    ("") rfl (by decide) rfl]
  rfl

/-- Claim C3 counterexample: `setPhaseUpdate` on a confined light does not
fail with any typed error — it returns normally (the Python method prints
a warning and returns `None`), leaving the light unchanged. -/
theorem c3_confined_returns_ok :
    c3Light.confine = some true
    ∧ c3Light.setPhaseUpdate Phase.GREEN 45 = Except.ok c3Light :=
  ⟨rfl, rfl⟩

/-- Claim C3 as amended: on every confined light, `setPhaseUpdate` is a
silent no-op — it raises nothing, signals no typed error, and leaves the
entire light state (phase and phaseDuration included) unchanged. -/
theorem c3_confined_silent_noop (l : TrafficLight) (p : Phase) (d : Int)
    (h : l.confine = some true) :
    l.setPhaseUpdate p d = Except.ok l := by
  simp [TrafficLight.setPhaseUpdate, h]

/-- Witness for the amended C3 at a concrete confined light. -/
theorem c3_confined_silent_noop_witness :
    c3Light.setPhaseUpdate Phase.YELLOW 10 = Except.ok c3Light :=
  c3_confined_silent_noop c3Light Phase.YELLOW 10 rfl

/-- Claim C4 counterexample: `closeIncident` on an incident still in
REPORTED succeeds (returns `True`) and stores it as RESOLVED — the
REPORTED→RESOLVED edge is not rejected, and nothing called
`InvalidTransition` exists. -/
theorem c4_reported_to_resolved_succeeds :
    c4Inc.status = IncidentStatus.REPORTED
    ∧ IncidentController.closeIncident [(("INC1"), c4Inc)] ("INC1")
      = ([(("INC1"), { c4Inc with status := IncidentStatus.RESOLVED })], true) :=
  ⟨rfl, rfl⟩

/-- Claim C4 as amended: `Incident.updateStatus` applies any requested
status unconditionally, and `closeIncident` resolves any stored incident
regardless of its current state (terminal states included); only an
unknown id makes it return `False`. -/
theorem c4_transitions_unrestricted (repo : List (String × Incident))
    (id : String) (inc : Incident) (target : IncidentStatus)
    (h : lookup repo id = some inc) :
    (inc.updateStatus target).status = target
    ∧ (IncidentController.closeIncident repo id).2 = true
    ∧ lookup (IncidentController.closeIncident repo id).1 id
        = some { inc with status := IncidentStatus.RESOLVED } := by
  refine ⟨rfl, ?_, ?_⟩
  · simp [IncidentController.closeIncident, h]
  · simp only [IncidentController.closeIncident, h]
    exact lookup_setEntry repo id _ (by simp [h])

/-- Witness for the amended C4: closing an incident already in the
terminal FALSE_ALARM state still succeeds and overwrites it to RESOLVED. -/
theorem c4_transitions_unrestricted_witness :
    (c4IncTerminal.updateStatus IncidentStatus.CONFIRMED).status
      = IncidentStatus.CONFIRMED
    ∧ (IncidentController.closeIncident [(("INC2"), c4IncTerminal)] ("INC2")).2
      = true
    ∧ lookup
        (IncidentController.closeIncident [(("INC2"), c4IncTerminal)] ("INC2")).1
        ("INC2")
      = some { c4IncTerminal with status := IncidentStatus.RESOLVED } :=
  c4_transitions_unrestricted [(("INC2"), c4IncTerminal)] ("INC2")
    c4IncTerminal IncidentStatus.CONFIRMED rfl

/-- Claim C5 (code bug, evaluated at the failing input): at hour 8 (peak
band) on junction `"J"` holding one OPERATIONAL light (`phaseDuration` 0)
and one confined light, `optimizePhases` mutates only the OPERATIONAL
light — setting phase GREEN and writing 45 into the stray
`baseDataPosition` — and returns exactly that light keyed by id, but the
reported duration is the stale `phaseDuration` 0, not the applied 45. -/
theorem c5_optimize_reports_stale_duration :
    TrafficController.optimizePhases 8 [(("J1"), c5Light), (("J2"), c5Conf)]
        ("J")
      = ([(("J1"), { c5Light with
            currentPhase := Phase.GREEN
            baseDataPosition := some 45 }), (("J2"), c5Conf)],
         Except.ok (TrafficController.OptimizeOutcome.results
           [(("J1"), Phase.GREEN, 0)])) :=
  rfl

/-- Claim C6 counterexample: on the spec's concrete route (cumulative
distances 0, 100, 250; target speed 50), `activate` only flips the
`isActive` flag — every signal in the route is left exactly as it was,
and no start-offsets (in particular not [0, 2, 5]) are computed anywhere
in the strategy's observable state. -/
theorem c6_activate_is_flag_flip_only :
    c6Route.activate = { c6Route with isActive := true }
    ∧ c6Route.activate.route = [c6LightA, c6LightB, c6LightC] :=
  ⟨rfl, rfl⟩

/-- Claim C6 as amended: `GreenwaveStrategy.activate` computes no timing
offsets at all — for every strategy it leaves the id, the route (hence
every member signal) and the target speed unchanged and merely ends with
`isActive = true`. -/
theorem c6_activate_touches_no_signal (g : GreenwaveStrategy) :
    g.activate.strategyId = g.strategyId
    ∧ g.activate.route = g.route
    ∧ g.activate.targetSpeed = g.targetSpeed
    ∧ g.activate.isActive = true := by
  unfold GreenwaveStrategy.activate
  by_cases h : g.isActive <;> simp [h]

/-- Claim C7: `deactivate` is idempotent — deactivating twice equals
deactivating once, and deactivating an inactive strategy is a no-op (it
prints a warning but changes nothing and raises nothing). -/
theorem c7_deactivate_idempotent (g : GreenwaveStrategy) :
    g.deactivate.deactivate = g.deactivate
    ∧ (g.isActive = false → g.deactivate = g) := by
  unfold GreenwaveStrategy.deactivate
  by_cases h : g.isActive <;> simp [h]

/-- Witness for C7 at a concrete inactive strategy. -/
theorem c7_deactivate_idempotent_witness :
    c7Route.deactivate.deactivate = c7Route.deactivate
    ∧ c7Route.deactivate = c7Route :=
  ⟨(c7_deactivate_idempotent c7Route).1,
   (c7_deactivate_idempotent c7Route).2 rfl⟩

/-- Claim C8 counterexample: a freshly constructed light already violates
the invariant — its phase is RED (≠ OFF) while `phaseDuration` is 0. -/
theorem c8_fresh_light_violates_invariant :
    (TrafficLight.init ("TL8") ⟨0, 0⟩).currentPhase ≠ Phase.OFF
    ∧ ¬ 0 < (TrafficLight.init ("TL8") ⟨0, 0⟩).phaseDuration :=
  ⟨by decide, by decide⟩

/-- Claim C8 as amended: `phaseDuration` is 0 at construction and is left
untouched by every operation — `setPhaseUpdate` (which writes the duration
into `baseDataPosition` instead) and `setConfine` both preserve it — so
`phaseDuration > 0` never becomes true through the public interface. -/
theorem c8_phaseDuration_stuck_at_zero (id : String) (loc : GeoPoint)
    (l l2 : TrafficLight) (p : Phase) (d : Int) (c : Bool)
    (h : l.setPhaseUpdate p d = Except.ok l2) :
    (TrafficLight.init id loc).phaseDuration = 0
    ∧ l2.phaseDuration = l.phaseDuration
    ∧ (l.setConfine c).phaseDuration = l.phaseDuration := by
  refine ⟨rfl, ?_, rfl⟩
  unfold TrafficLight.setPhaseUpdate at h
  cases hc : l.confine with
  | none => rw [hc] at h; cases h
  | some cc =>
    rw [hc] at h
    cases cc with
    | true =>
      simp only [if_true] at h
      cases h
      rfl
    | false =>
      simp only [if_false] at h
      cases h
      rfl

/-- Witness for the amended C8 at a concrete released light. -/
theorem c8_phaseDuration_stuck_at_zero_witness :
    (TrafficLight.init ("TL8") ⟨0, 0⟩).phaseDuration = 0
    ∧ ({ c8Light with
          currentPhase := Phase.GREEN
          baseDataPosition := some 45 } : TrafficLight).phaseDuration
        = c8Light.phaseDuration
    ∧ (c8Light.setConfine true).phaseDuration = c8Light.phaseDuration :=
  c8_phaseDuration_stuck_at_zero ("TL8") ⟨0, 0⟩ c8Light _ Phase.GREEN 45 true rfl

/-- Claim C9: on a freshly constructed light (`setConfine` never called),
both `setPhaseUpdate` and `getStatusUp` raise `AttributeError` on the
unassigned `confine` attribute; and even after `setConfine(False)`,
`getStatusUp` raises `AttributeError` on the never-assigned
`question_component`. -/
theorem c9_fresh_light_attribute_errors (id : String) (loc : GeoPoint)
    (p : Phase) (d : Int) :
    (TrafficLight.init id loc).setPhaseUpdate p d
      = Except.error PyErr.attributeErrorConfine
    ∧ (TrafficLight.init id loc).getStatusUp
      = Except.error PyErr.attributeErrorConfine
    ∧ ((TrafficLight.init id loc).setConfine false).getStatusUp
      = Except.error PyErr.attributeErrorQuestionComponent :=
  ⟨rfl, rfl, rfl⟩

/-- Claim C10 counterexample: a freshly constructed light stored under a
present id makes `manualSwitch` raise `AttributeError` instead of
returning `True` — so `manualSwitch` does not return `True` for every
present light id. -/
theorem c10_present_id_can_raise :
    lookup [(("TL10"), c10Fresh)] ("TL10") = some c10Fresh
    ∧ TrafficController.manualSwitch [(("TL10"), c10Fresh)] ("TL10")
        Phase.GREEN 45
      = Except.error PyErr.attributeErrorConfine :=
  ⟨rfl, rfl⟩

/-- Claim C10 as amended: `manualSwitch` returns `False` exactly for an
unknown id; for a present light whose `confine` attribute is assigned it
returns `True` — including a confined light, which it stores back
unchanged, so `True` does not imply the phase was applied — and for a
present light whose `confine` attribute was never assigned it raises
`AttributeError`. -/
theorem c10_manualSwitch_true_for_present (repo : List (String × TrafficLight))
    (id : String) (p : Phase) (d : Int) :
    (lookup repo id = none →
      TrafficController.manualSwitch repo id p d = Except.ok (repo, false))
    ∧ (∀ light, lookup repo id = some light → light.confine = some true →
        TrafficController.manualSwitch repo id p d
          = Except.ok (setEntry repo id light, true)
        ∧ lookup (setEntry repo id light) id = some light)
    ∧ (∀ light, lookup repo id = some light → light.confine = some false →
        TrafficController.manualSwitch repo id p d
          = Except.ok (setEntry repo id
              { light with currentPhase := p, baseDataPosition := some d },
              true))
    ∧ (∀ light, lookup repo id = some light → light.confine = none →
        TrafficController.manualSwitch repo id p d
          = Except.error PyErr.attributeErrorConfine) := by
  refine ⟨?_, ?_, ?_, ?_⟩
  · intro h
    simp [TrafficController.manualSwitch, h]
  · intro light h hc
    refine ⟨?_, lookup_setEntry repo id light (by simp [h])⟩
    simp [TrafficController.manualSwitch, h, TrafficLight.setPhaseUpdate, hc]
  · intro light h hc
    simp [TrafficController.manualSwitch, h, TrafficLight.setPhaseUpdate, hc]
  · intro light h hc
    simp [TrafficController.manualSwitch, h, TrafficLight.setPhaseUpdate, hc]

/-- Witness for the amended C10: a confined light under a present id
yields `True` with the light stored back unchanged. -/
theorem c10_manualSwitch_true_for_present_witness :
    TrafficController.manualSwitch [(("TL10"), c10Conf)] ("TL10")
        Phase.GREEN 45
      = Except.ok (setEntry [(("TL10"), c10Conf)] ("TL10") c10Conf, true)
    ∧ lookup (setEntry [(("TL10"), c10Conf)] ("TL10") c10Conf) ("TL10")
      = some c10Conf :=
  (c10_manualSwitch_true_for_present [(("TL10"), c10Conf)] ("TL10")
    Phase.GREEN 45).2.1 c10Conf rfl rfl
